import Mathlib

/-!
# Shallow embedding of `src/timer.rs` (stm32f7xx-hal countdown timers)

The module under verification drives an STM32F7 general-purpose timer block as a
periodic countdown timer.  The peripheral state touched by the code consists of
the prescaler register (`psc`, a 16-bit field), the auto-reload register (`arr`,
a 32-bit register of which at most 16 bits are used), the control register
(`cr1` with its `cen` counter-enable bit), the status register (`sr` with its
`uif` update-interrupt flag), and the DMA/interrupt-enable register (`dier` with
its `uie` bit).  Registers that hold further fields beside the ones the code
names are modelled with an extra `rest : Nat` component so that the difference
between a whole-register `write` (which resets every field not mentioned to the
register's reset value, zero for these registers) and a read-modify-write
`modify` (which preserves them) is observable.

Machine integers are modelled as `Nat`.  The Rust values are `u32`s; the only
places where width matters are the two checked `u16(...)` casts (whose failure
aborts `start` via `.unwrap()`), the `ticks - 1` subtraction (which underflows,
and so panics under checked arithmetic, when `ticks = 0`), the division
`clock / frequency` (which panics when `frequency = 0`), and the 16-bit
addition `psc + 1` inside `u32(psc + 1)` (which overflows when `psc = 0xFFFF`:
a panic in debug builds, and in release builds a wrap to zero followed by an
unconditional divide-by-zero panic).  `start` is therefore embedded as an
`Option`-returning function: `none` models any of these panics, `some` carries
the post-state.
-/

namespace Stm32f7

/-- Frequency in hertz; the Rust `Hertz` newtype over `u32`. -/
abbrev Hertz := Nat

/-- The status register: the `uif` update-interrupt flag plus the remaining
bits, which the code never names.  Reset value of the whole register is 0. -/
structure SR where
  uif : Bool
  rest : Nat
deriving DecidableEq

/-- The control register 1: the `cen` counter-enable bit plus the remaining
bits.  Reset value of the whole register is 0. -/
structure CR1 where
  cen : Bool
  rest : Nat
deriving DecidableEq

/-- The DMA/interrupt enable register: the `uie` update-interrupt-enable bit
plus the remaining bits.  Reset value of the whole register is 0. -/
structure DIER where
  uie : Bool
  rest : Nat
deriving DecidableEq

/-- The timer register block, holding exactly the registers the code touches:
prescaler `psc`, auto-reload `arr`, control `cr1`, status `sr`, interrupt
enable `dier`.  The event-generation register `egr` is write-only and carries
no state; its write is modelled by its hardware effect (see `egrWriteUg`). -/
structure TimReg where
  psc : Nat
  arr : Nat
  cr1 : CR1
  sr : SR
  dier : DIER
deriving DecidableEq

/-- A timer register block with every register at its reset value. -/
def resetTimReg : TimReg :=
  { psc := 0, arr := 0
    cr1 := { cen := false, rest := 0 }
    sr := { uif := false, rest := 0 }
    dier := { uie := false, rest := 0 } }

/-- The `Timer<TIM>` struct: input clock frequency, owned register block,
last configured timeout. -/
structure Timer where
  clock : Hertz
  tim : TimReg
  timeout : Hertz
deriving DecidableEq

/-- Interrupt events (`enum Event`): only the timeout / countdown-ended
event exists. -/
inductive Event where
  | TimeOut
deriving DecidableEq

/-- Timer errors (`enum Error`): `Disabled` — the timer is disabled. -/
inductive Error where
  | Disabled
deriving DecidableEq

/-- The uninhabited `void::Void` error type used by `wait`. -/
def Void := Empty

/-- The `nb` crate's error wrapper: either `WouldBlock` or an underlying
error of type `E`.  `nb::Result<T, E>` is `Result<T, nb::Error<E>>`. -/
inductive NbError (E : Type) where
  | wouldBlock
  | other (e : E)

/-- The checked 16-bit cast `cast::u16 : u32 -> Result<u16, _>`: succeeds
exactly on values below `2 ^ 16`. -/
def u16 (n : Nat) : Option Nat :=
  if n < 2 ^ 16 then some n else none

/-- `self.disable()`: read-modify-write clearing `cr1.cen`. -/
def Timer.disable (t : Timer) : Timer :=
  { t with tim := { t.tim with cr1 := { t.tim.cr1 with cen := false } } }

/-- `self.enable()`: read-modify-write setting `cr1.cen`. -/
def Timer.enable (t : Timer) : Timer :=
  { t with tim := { t.tim with cr1 := { t.tim.cr1 with cen := true } } }

/-- Hardware effect of `self.tim.egr.write(|w| w.ug().set_bit())`: writing the
`ug` bit forces an immediate update event, which loads the prescaler and raises
the `uif` flag in the status register.  The source's own comment records this:
the write "raises an update event which will indicate that the timer is
already finished". -/
def egrWriteUg (r : TimReg) : TimReg :=
  { r with sr := { r.sr with uif := true } }

/-- `CountDown::start` for `Timer<TIM>` (lines 43–68 of `timer.rs`):
disable the counter, store the timeout, compute `ticks = clock / frequency`,
derive `psc = u16((ticks - 1) / (1 << 16)).unwrap()`, write the prescaler,
derive `arr = u16(ticks / u32(psc + 1)).unwrap()`, write the reload register,
force an update event via `egr.ug`, clear the spurious `uif` flag with a
read-modify-write, and re-enable the counter.  A panic (division by zero,
checked-subtraction underflow of `ticks - 1`, or a failed `u16` cast) is
modelled as `none`.  Note that in `u32(psc + 1)` the addition is performed on
the 16-bit `psc` before the widening cast: when `psc = 0xFFFF` it overflows —
a panic in debug builds, and in release builds a wrap to zero followed by an
unconditional divide-by-zero panic in `ticks / 0` — so the increment is
guarded by `psc + 1 < 2 ^ 16` and its failure is likewise `none`. -/
def start (t : Timer) (timeout : Hertz) : Option Timer :=
  if timeout = 0 then none else
  let t1 : Timer := { t.disable with timeout := timeout }
  let ticks := t1.clock / timeout
  if ticks = 0 then none else
  match u16 ((ticks - 1) / 2 ^ 16) with
  | none => none
  | some psc =>
    let t2 : Timer := { t1 with tim := { t1.tim with psc := psc } }
    if psc + 1 < 2 ^ 16 then
      match u16 (ticks / (psc + 1)) with
      | none => none
      | some arr =>
        let t3 : Timer := { t2 with tim := { t2.tim with arr := arr } }
        let t4 : Timer := { t3 with tim := egrWriteUg t3.tim }
        let t5 : Timer :=
          { t4 with tim := { t4.tim with sr := { t4.tim.sr with uif := false } } }
        some t5.enable
    else none

/-- `CountDown::wait` (lines 70–77): if `sr.uif` reads clear, return
`Err(WouldBlock)` leaving the state untouched; otherwise clear `uif` with a
read-modify-write and return `Ok(())`. -/
def wait (t : Timer) : Timer × Except (NbError Void) Unit :=
  if t.tim.sr.uif = false then
    (t, Except.error NbError.wouldBlock)
  else
    ({ t with tim := { t.tim with sr := { t.tim.sr with uif := false } } },
      Except.ok ())

/-- `Cancel::cancel` (lines 83–91): if `cr1.cen` reads disabled, return
`Err(Error::Disabled)`; otherwise disable the counter and return `Ok(())`. -/
def cancel (t : Timer) : Timer × Except Error Unit :=
  if t.tim.cr1.cen = false then
    (t, Except.error Error.Disabled)
  else
    (t.disable, Except.ok ())

/-- `Timer::free` (lines 151–155): disable the counter and return the raw
register block. -/
def free (t : Timer) : TimReg :=
  t.disable.tim

/-- `Timer::listen` (lines 118–125): on `Event::TimeOut`, whole-register
`write` of `dier` setting `uie`; every other field is left at the register's
write-reset value, zero. -/
def listen (t : Timer) (e : Event) : Timer :=
  match e with
  | Event.TimeOut => { t with tim := { t.tim with dier := { uie := true, rest := 0 } } }

/-- `Timer::clear_interrupt` (lines 131–138): on `Event::TimeOut`,
whole-register `write` of `sr` clearing `uif`; every other field is left at
the register's write-reset value, zero. -/
def clear_interrupt (t : Timer) (e : Event) : Timer :=
  match e with
  | Event.TimeOut => { t with tim := { t.tim with sr := { uif := false, rest := 0 } } }

/-- `Timer::unlisten` (lines 141–148): on `Event::TimeOut`, whole-register
`write` of `dier` clearing `uie`; every other field is left at the register's
write-reset value, zero. -/
def unlisten (t : Timer) (e : Event) : Timer :=
  match e with
  | Event.TimeOut => { t with tim := { t.tim with dier := { uie := false, rest := 0 } } }

/-- The `enr` bus register, reduced to the one `timXen` enable bit the code
touches plus the remaining bits. -/
structure EnrReg where
  en : Bool
  rest : Nat
deriving DecidableEq

/-- The `rstr` bus register, reduced to the one `timXrst` reset bit the code
touches plus the remaining bits. -/
structure RstrReg where
  rst : Bool
  rest : Nat
deriving DecidableEq

/-- The APB bus controller (`APB1` or `APB2`) as seen by the constructor:
its enable register and its reset register. -/
structure APB where
  enr : EnrReg
  rstr : RstrReg
deriving DecidableEq

/-- The `Clocks` descriptor: resolved timer kernel frequencies for the two
bus domains (`timclk1` for APB1 timers, `timclk2` for APB2 timers). -/
structure Clocks where
  timclk1 : Hertz
  timclk2 : Hertz
deriving DecidableEq

/-- Bus operations performed by the constructor, recorded in order so that
the enable-then-reset-pulse sequencing is observable. -/
inductive BusEvent where
  | enableSet
  | resetSet
  | resetClear
deriving DecidableEq

/-- `apb.enr().modify(|_, w| w.timXen().set_bit())`: read-modify-write
setting the enable bit, recorded in the trace. -/
def modifyEnrSetEn (s : APB × List BusEvent) : APB × List BusEvent :=
  ({ s.1 with enr := { s.1.enr with en := true } }, s.2 ++ [BusEvent.enableSet])

/-- `apb.rstr().modify(|_, w| w.timXrst().set_bit())`: read-modify-write
setting the reset bit, recorded in the trace. -/
def modifyRstrSetRst (s : APB × List BusEvent) : APB × List BusEvent :=
  ({ s.1 with rstr := { s.1.rstr with rst := true } }, s.2 ++ [BusEvent.resetSet])

/-- `apb.rstr().modify(|_, w| w.timXrst().clear_bit())`: read-modify-write
clearing the reset bit, recorded in the trace. -/
def modifyRstrClearRst (s : APB × List BusEvent) : APB × List BusEvent :=
  ({ s.1 with rstr := { s.1.rstr with rst := false } }, s.2 ++ [BusEvent.resetClear])

/-- The macro-generated constructor `Timer::$tim` (lines 96–115), with the
macro's `$timclk` clock selector as a parameter: enable the bus clock gate,
pulse reset (set then clear), resolve the clock for the timer's bus domain,
build the struct with `timeout` initialised to `Hertz(0)`, and delegate to
`start(timeout)`.  Returns the final bus state, the ordered trace of bus
operations, and the started timer (`none` if `start` panicked). -/
def mkTimer (timclk : Clocks → Hertz) (tim : TimReg) (timeout : Hertz)
    (clocks : Clocks) (apb : APB) : (APB × List BusEvent) × Option Timer :=
  let s1 := modifyEnrSetEn (apb, [])
  let s2 := modifyRstrSetRst s1
  let s3 := modifyRstrClearRst s2
  let clock := timclk clocks
  let timer : Timer := { clock := clock, tim := tim, timeout := 0 }
  (s3, start timer timeout)

/-- The `tim2` expansion of the constructor macro: an APB1 timer, clocked
from `timclk1`. -/
def tim2 : TimReg → Hertz → Clocks → APB → (APB × List BusEvent) × Option Timer :=
  mkTimer Clocks.timclk1

/-- The `tim1` expansion of the constructor macro: an APB2 timer, clocked
from `timclk2`. -/
def tim1 : TimReg → Hertz → Clocks → APB → (APB × List BusEvent) × Option Timer :=
  mkTimer Clocks.timclk2

/-- A 16 MHz-clocked timer with all registers at reset, used for the
spec's concrete scenario. -/
def t16M : Timer :=
  { clock := 16000000, tim := resetTimReg, timeout := 0 }

example : (start t16M 1000).map (fun s => (s.tim.psc, s.tim.arr)) = some (0, 16000) := by
  decide

example : (start t16M 1).map (fun s => (s.tim.psc, s.tim.arr)) = some (244, 65306) := by
  decide

example : start { clock := 65536, tim := resetTimReg, timeout := 0 } 1 = none := by
  decide

example : start { clock := 4294967295, tim := resetTimReg, timeout := 0 } 1 = none := by
  decide

/-- `start` succeeds exactly when none of its panics fire: the timeout is
nonzero, at least one tick is requested, the prescaler cast is in range, the
16-bit increment `psc + 1` does not overflow, and the reload cast is in
range. -/
lemma start_isSome_iff (t : Timer) (timeout : Hertz) :
    (start t timeout).isSome ↔
      timeout ≠ 0 ∧ 1 ≤ t.clock / timeout ∧
      (t.clock / timeout - 1) / 2 ^ 16 < 2 ^ 16 ∧
      (t.clock / timeout - 1) / 2 ^ 16 + 1 < 2 ^ 16 ∧
      (t.clock / timeout) / ((t.clock / timeout - 1) / 2 ^ 16 + 1) < 2 ^ 16 := by
  simp only [show (2 : Nat) ^ 16 = 65536 by norm_num]
  by_cases h0 : timeout = 0
  · simp [start, h0]
  by_cases h1 : t.clock / timeout = 0
  · simp [start, Timer.disable, h0, h1]
  by_cases h2 : (t.clock / timeout - 1) / 65536 < 65536
  · by_cases h2b : (t.clock / timeout - 1) / 65536 + 1 < 65536
    · by_cases h3 : (t.clock / timeout) / ((t.clock / timeout - 1) / 65536 + 1) < 65536
      · simp [start, u16, Timer.disable, Timer.enable, egrWriteUg, h0, h1, h2, h2b, h3,
          Nat.one_le_iff_ne_zero]
      · simp [start, u16, Timer.disable, Timer.enable, egrWriteUg, h0, h1, h2, h2b, h3]
    · simp [start, u16, Timer.disable, Timer.enable, egrWriteUg, h0, h1, h2, h2b]
  · simp [start, u16, Timer.disable, Timer.enable, egrWriteUg, h0, h1, h2]

/-- When none of the panics fire, `start` returns exactly the state the
source writes: prescaler `(ticks - 1) / 2 ^ 16`, reload `ticks / (psc + 1)`,
counter enabled, `uif` cleared, every untouched field preserved, and the new
timeout stored. -/
lemma start_eval (t : Timer) (timeout : Hertz)
    (h0 : timeout ≠ 0) (h1 : 1 ≤ t.clock / timeout)
    (h2 : (t.clock / timeout - 1) / 2 ^ 16 < 2 ^ 16)
    (h2b : (t.clock / timeout - 1) / 2 ^ 16 + 1 < 2 ^ 16)
    (h3 : (t.clock / timeout) / ((t.clock / timeout - 1) / 2 ^ 16 + 1) < 2 ^ 16) :
    start t timeout = some
      { clock := t.clock,
        tim := { psc := (t.clock / timeout - 1) / 2 ^ 16,
                 arr := (t.clock / timeout) / ((t.clock / timeout - 1) / 2 ^ 16 + 1),
                 cr1 := { cen := true, rest := t.tim.cr1.rest },
                 sr := { uif := false, rest := t.tim.sr.rest },
                 dier := t.tim.dier },
        timeout := timeout } := by
  have hpow : (2 : Nat) ^ 16 = 65536 := by norm_num
  have h1' : t.clock / timeout ≠ 0 := Nat.one_le_iff_ne_zero.mp h1
  rw [hpow] at h2 h2b h3
  simp only [hpow]
  simp [start, u16, Timer.disable, Timer.enable, egrWriteUg, h0, h1', h2, h2b, h3]

/-- Inversion for a successful `start`: the post-state's register fields in
terms of the inputs, plus the side conditions the success implies. -/
lemma start_some_inv (t : Timer) (timeout : Hertz) (t' : Timer)
    (h : start t timeout = some t') :
    timeout ≠ 0 ∧ 1 ≤ t.clock / timeout ∧
    t'.tim.psc = (t.clock / timeout - 1) / 2 ^ 16 ∧
    t'.tim.arr = (t.clock / timeout) / ((t.clock / timeout - 1) / 2 ^ 16 + 1) ∧
    t'.tim.psc < 2 ^ 16 ∧ t'.tim.arr < 2 ^ 16 ∧
    t'.clock = t.clock ∧ t'.timeout = timeout ∧
    t'.tim.cr1.cen = true ∧ t'.tim.sr.uif = false ∧
    t'.tim.cr1.rest = t.tim.cr1.rest ∧ t'.tim.sr.rest = t.tim.sr.rest ∧
    t'.tim.dier = t.tim.dier ∧
    t'.tim.psc + 1 < 2 ^ 16 := by
  have hs : (start t timeout).isSome := by rw [h]; rfl
  obtain ⟨h0, h1, h2, h2b, h3⟩ := (start_isSome_iff t timeout).mp hs
  have he := start_eval t timeout h0 h1 h2 h2b h3
  rw [he] at h
  injection h with h
  subst h
  exact ⟨h0, h1, rfl, rfl, h2, h3, rfl, rfl, rfl, rfl, rfl, rfl, rfl, h2b⟩

/-- For a positive tick count, the source's `(ticks - 1) / 2 ^ 16` equals the
spec's `ceil(ticks / 2 ^ 16) - 1`. -/
lemma pred_div_eq_ceil_sub_one (ticks : Nat) (h : 1 ≤ ticks) :
    (ticks + 2 ^ 16 - 1) / 2 ^ 16 - 1 = (ticks - 1) / 2 ^ 16 := by
  simp only [show (2 : Nat) ^ 16 = 65536 by norm_num]
  omega

/-- Any prescaler strictly smaller than `(ticks - 1) / 2 ^ 16` would make the
reload value `ticks / (p + 1)` overflow 16 bits. -/
lemma smaller_psc_overflows (ticks p : Nat) (hp : p < (ticks - 1) / 2 ^ 16) :
    2 ^ 16 ≤ ticks / (p + 1) := by
  simp only [show (2 : Nat) ^ 16 = 65536 by norm_num] at hp ⊢
  have hA : (p + 1) * 65536 ≤ ticks - 1 :=
    (Nat.le_div_iff_mul_le (by norm_num)).mp hp
  refine (Nat.le_div_iff_mul_le (Nat.succ_pos p)).mpr ?_
  omega

/-- For a positive tick count, the reload value `ticks / ((ticks-1)/2^16 + 1)`
fits in 16 bits exactly when `ticks` is not a multiple of `2 ^ 16`; on a
multiple the quotient is exactly `2 ^ 16`, which overflows the register. -/
lemma arr_lt_iff_not_dvd (ticks : Nat) (h : 1 ≤ ticks) :
    ticks / ((ticks - 1) / 2 ^ 16 + 1) < 2 ^ 16 ↔ ¬ (2 ^ 16 ∣ ticks) := by
  simp only [show (2 : Nat) ^ 16 = 65536 by norm_num]
  constructor
  · intro harr hdvd
    obtain ⟨k, rfl⟩ := hdvd
    have hk : 1 ≤ k := by omega
    have hq : (65536 * k - 1) / 65536 = k - 1 := by omega
    rw [hq] at harr
    have hk1 : k - 1 + 1 = k := by omega
    rw [hk1, Nat.mul_div_cancel _ hk] at harr
    omega
  · intro hnd
    have hub : ticks ≤ 65536 * ((ticks - 1) / 65536 + 1) := by omega
    have hne : ticks ≠ 65536 * ((ticks - 1) / 65536 + 1) := fun he => hnd ⟨_, he⟩
    exact (Nat.div_lt_iff_lt_mul (Nat.succ_pos _)).mpr (lt_of_le_of_ne hub hne)

/-- The 16-bit increment of the derived prescaler stays in range exactly when
the tick count is at most `2 ^ 32 - 2 ^ 16`; one tick beyond that the
prescaler is `0xFFFF` and `psc + 1` overflows. -/
lemma psc_succ_lt_iff (ticks : Nat) (h : 1 ≤ ticks) :
    (ticks - 1) / 2 ^ 16 + 1 < 2 ^ 16 ↔ ticks ≤ 2 ^ 32 - 2 ^ 16 := by
  simp only [show (2 : Nat) ^ 16 = 65536 by norm_num,
    show (2 : Nat) ^ 32 = 4294967296 by norm_num]
  omega

/-- The spec's prescaler formula: `psc = ceil(ticks / 2^16) - 1`, written with
natural-number ceiling division. -/
def specPsc (ticks : Nat) : Nat :=
  (ticks + 2 ^ 16 - 1) / 2 ^ 16 - 1

/-- The spec's reload formula: `arr = ticks / (psc + 1)` with `psc` as in
`specPsc`. -/
def specArr (ticks : Nat) : Nat :=
  ticks / (specPsc ticks + 1)

/-- The state `start t16M 1000` produces (checked below by evaluation):
`psc = 0`, `arr = 16000`, counter enabled, `uif` clear, timeout 1000. -/
def tA : Timer :=
  { clock := 16000000
    tim := { psc := 0, arr := 16000, cr1 := { cen := true, rest := 0 }
             sr := { uif := false, rest := 0 }, dier := { uie := false, rest := 0 } }
    timeout := 1000 }

example : start t16M 1000 = some tA := by decide

/-- A 65536 Hz clocked timer at reset: requesting a 1 Hz timeout on it asks
for `ticks = 2 ^ 16`, the smallest input on which `start` panics. -/
def t64K : Timer :=
  { clock := 65536, tim := resetTimReg, timeout := 0 }

/-- C1: the claim says `(psc+1)*(arr+1) = clock_hz/timeout_hz` for evenly
dividing timeouts.  False on the code: at `clock_hz = 16000000`,
`timeout_hz = 1000` (which divides the clock evenly and yields the perfectly
representable `ticks = 16000`), the written pair is `psc = 0`, `arr = 16000`,
whose `(psc+1)*(arr+1)` is `16001`, not `16000`. -/
theorem C1_counterexample :
    t16M.clock % 1000 = 0
    ∧ t16M.clock / 1000 = 16000
    ∧ (start t16M 1000).map (fun s => (s.tim.psc + 1) * (s.tim.arr + 1)) = some 16001
    ∧ (16001 : Nat) ≠ 16000 := by
  decide

/-- C1 (amended): for a timeout dividing the clock evenly, whenever `start`
succeeds and `psc + 1` divides the tick count exactly, the written values
satisfy `(psc+1) * arr = clock_hz / timeout_hz` (without the `+1` on `arr`),
`arr` fits in 16 bits, and `psc` is minimal subject to that fit: any smaller
prescaler would push the reload quotient to `2 ^ 16` or beyond. -/
theorem C1_product_and_minimality (t : Timer) (timeout : Hertz) (t' : Timer)
    (_hdiv : t.clock % timeout = 0)
    (hs : start t timeout = some t')
    (hexact : (t'.tim.psc + 1) ∣ t.clock / timeout) :
    (t'.tim.psc + 1) * t'.tim.arr = t.clock / timeout
    ∧ t'.tim.arr < 2 ^ 16
    ∧ ∀ p, p < t'.tim.psc → 2 ^ 16 ≤ (t.clock / timeout) / (p + 1) := by
  obtain ⟨h0, h1, hpsc, harr, hpsclt, harrlt, _⟩ := start_some_inv t timeout t' hs
  refine ⟨?_, harrlt, ?_⟩
  · rw [harr, ← hpsc]
    exact Nat.mul_div_cancel' hexact
  · intro p hp
    rw [hpsc] at hp
    exact smaller_psc_overflows _ p hp

/-- C1 witness: the amended theorem applied at `clock_hz = 16000000`,
`timeout_hz = 1000`, where `start` yields `psc = 0`, `arr = 16000`. -/
theorem C1_witness :
    (tA.tim.psc + 1) * tA.tim.arr = t16M.clock / 1000 ∧ tA.tim.arr < 2 ^ 16 :=
  ⟨(C1_product_and_minimality t16M 1000 tA (by decide) (by decide) (by decide)).1,
   (C1_product_and_minimality t16M 1000 tA (by decide) (by decide) (by decide)).2.1⟩

/-- C2: for every accepted configuration, `start` computes
`ticks = clock_hz / timeout_hz` by integer division, derives
`psc = ceil(ticks / 2^16) - 1` and `arr = ticks / (psc + 1)`, and the
prescaler and reload registers of the post-state hold exactly these values. -/
theorem C2_psc_arr_formulas (t : Timer) (timeout : Hertz) (t' : Timer)
    (hs : start t timeout = some t') :
    t'.tim.psc = specPsc (t.clock / timeout)
    ∧ t'.tim.arr = specArr (t.clock / timeout) := by
  obtain ⟨h0, h1, hpsc, harr, _⟩ := start_some_inv t timeout t' hs
  have hceil : specPsc (t.clock / timeout) = (t.clock / timeout - 1) / 2 ^ 16 :=
    pred_div_eq_ceil_sub_one _ h1
  constructor
  · rw [hpsc, hceil]
  · rw [harr, specArr, hceil]

/-- C2 witness: the theorem applied at `clock_hz = 16000000`,
`timeout_hz = 1000`. -/
theorem C2_witness :
    tA.tim.psc = specPsc (t16M.clock / 1000) ∧ tA.tim.arr = specArr (t16M.clock / 1000) :=
  C2_psc_arr_formulas t16M 1000 tA (by decide)

/-- C3: the claim's concrete scenario says `start 1000` on a 16 MHz timer
yields `arr = 15999` and a subsequent `start 1` yields `psc = 243`,
`arr = 65432`.  False on the code: the first start writes `arr = 16000`
(the code does not subtract one from the quotient), and the reconfiguration
writes `psc = 244`, `arr = 65306`. -/
theorem C3_counterexample :
    (start t16M 1000).map (fun s => s.tim.arr) = some 16000
    ∧ some (16000 : Nat) ≠ some 15999
    ∧ ((start t16M 1000).bind (fun s => start s 1)).map (fun s => (s.tim.psc, s.tim.arr))
        = some (244, 65306)
    ∧ some ((244 : Nat), (65306 : Nat)) ≠ some (243, 65432) := by
  decide

/-- C3 (amended): with `clock_hz = 16000000`, `start(1000)` computes
`ticks = 16000` and writes `psc = 0`, `arr = 16000`; reconfiguring the same
instance with `start(1)` computes `ticks = 16000000` and writes `psc = 244`
(`(16000000 - 1) / 2^16`), `arr = 65306` (`16000000 / 245`). -/
theorem C3_concrete_scenario :
    (start t16M 1000).map (fun s => (s.clock / s.timeout, s.tim.psc, s.tim.arr))
        = some (16000, 0, 16000)
    ∧ ((start t16M 1000).bind (fun s => start s 1)).map
          (fun s => (s.clock / s.timeout, s.tim.psc, s.tim.arr))
        = some (16000000, 244, 65306) := by
  decide

/-- C4: the claim says the unwrap-guarded casts fail iff `ticks` cannot be
represented by a 32-bit prescaler-times-reload product or the derived
prescaler exceeds 16 bits.  False on the code: at `clock_hz = 65536`,
`timeout_hz = 1`, the tick count `65536` is exactly `(1+1) * (32767+1)` with
both factors comfortably inside 16 bits, and the derived prescaler is `0`,
yet `start` panics (the reload cast sees `65536 / 1 = 65536`, one too large
for the 16-bit register). -/
theorem C4_counterexample :
    start t64K 1 = none
    ∧ t64K.clock / 1 = (1 + 1) * (32767 + 1)
    ∧ 1 < 2 ^ 16 ∧ 32767 < 2 ^ 16
    ∧ (t64K.clock / 1 - 1) / 2 ^ 16 < 2 ^ 16 := by
  decide

/-- C4 (amended): `start` completes without an assertion failure exactly
when the tick count `clock_hz / timeout_hz` is at least one, at most
`2 ^ 32 - 2 ^ 16`, and not a multiple of `2 ^ 16`.  The three failure modes
are: zero ticks (the `ticks - 1` computation aborts), a tick count above
`2 ^ 32 - 2 ^ 16` (the derived prescaler is `0xFFFF` and its 16-bit
increment `psc + 1` aborts before the reload division), and a positive
multiple of `2 ^ 16` (the reload quotient is exactly `2 ^ 16`, one too large
for its 16-bit cast). -/
theorem C4_start_completes_iff (t : Timer) (timeout : Hertz) :
    (start t timeout).isSome ↔
      (1 ≤ t.clock / timeout ∧ t.clock / timeout ≤ 2 ^ 32 - 2 ^ 16
       ∧ ¬ (2 ^ 16 ∣ t.clock / timeout)) := by
  rw [start_isSome_iff]
  constructor
  · rintro ⟨h0, h1, h2, h2b, h3⟩
    exact ⟨h1, (psc_succ_lt_iff _ h1).mp h2b, (arr_lt_iff_not_dvd _ h1).mp h3⟩
  · rintro ⟨h1, hle, hnd⟩
    have h0 : timeout ≠ 0 := fun he => by simp [he] at h1
    have h2b := (psc_succ_lt_iff _ h1).mpr hle
    exact ⟨h0, h1, lt_of_le_of_lt (Nat.le_add_right _ 1) h2b, h2b,
      (arr_lt_iff_not_dvd _ h1).mpr hnd⟩

/-- C5: after every accepted `start`, the status register's `uif` flag reads
clear (so an immediately following `wait` reports not-ready rather than a
spurious elapsed), the control register's `cen` bit is set (counter running),
and the stored `timeout` equals the requested timeout. -/
theorem C5_post_state (t : Timer) (timeout : Hertz) (t' : Timer)
    (hs : start t timeout = some t') :
    t'.tim.sr.uif = false ∧ t'.tim.cr1.cen = true ∧ t'.timeout = timeout
    ∧ (wait t').2 = Except.error NbError.wouldBlock := by
  obtain ⟨-, -, -, -, -, -, -, htm, hcen, huif, -, -, -⟩ := start_some_inv t timeout t' hs
  exact ⟨huif, hcen, htm, by simp [wait, huif]⟩

/-- C5 witness: the theorem applied to `start` at `clock_hz = 16000000`,
`timeout_hz = 1000`. -/
theorem C5_witness :
    tA.tim.sr.uif = false ∧ tA.tim.cr1.cen = true ∧ tA.timeout = 1000 :=
  let h := C5_post_state t16M 1000 tA (by decide)
  ⟨h.1, h.2.1, h.2.2.1⟩

/-- C6: `wait` returns `WouldBlock` exactly when `uif` reads clear; when
`uif` is set it clears the flag and reports success, so a second `wait`
immediately after a success (with no new rollover) reports `WouldBlock`; and
no outcome beside those two exists, since the error type `Void` is
uninhabited. -/
theorem C6_wait_behaviour (t : Timer) :
    ((wait t).2 = Except.error NbError.wouldBlock ↔ t.tim.sr.uif = false)
    ∧ (t.tim.sr.uif = true →
        (wait t).2 = Except.ok () ∧ (wait t).1.tim.sr.uif = false
        ∧ (wait (wait t).1).2 = Except.error NbError.wouldBlock)
    ∧ ((wait t).2 = Except.error NbError.wouldBlock ∨ (wait t).2 = Except.ok ())
    ∧ (∀ e : Void, (wait t).2 ≠ Except.error (NbError.other e)) := by
  refine ⟨?_, ?_, ?_, fun e => e.elim⟩ <;>
    cases h : t.tim.sr.uif <;> simp [wait, h]

/-- C6 witness: on a timer whose `uif` flag is set, `wait` reports success
and a second `wait` reports `WouldBlock`. -/
theorem C6_witness :
    (wait { clock := 0, tim := { resetTimReg with sr := { uif := true, rest := 0 } },
            timeout := 0 }).2 = Except.ok () :=
  ((C6_wait_behaviour _).2.1 rfl).1

/-- C7: `cancel` returns the `Disabled` error exactly when the control
register's `cen` bit is clear; otherwise it clears `cen` and returns success.
On a freshly started timer `cancel` succeeds, and a second consecutive
`cancel` fails with `Disabled`. -/
theorem C7_cancel_behaviour (t : Timer) :
    ((cancel t).2 = Except.error Error.Disabled ↔ t.tim.cr1.cen = false)
    ∧ (t.tim.cr1.cen = true →
        (cancel t).2 = Except.ok () ∧ (cancel t).1.tim.cr1.cen = false)
    ∧ (∀ timeout t', start t timeout = some t' →
        (cancel t').2 = Except.ok ()
        ∧ (cancel (cancel t').1).2 = Except.error Error.Disabled) := by
  refine ⟨?_, ?_, ?_⟩
  · cases h : t.tim.cr1.cen <;> simp [cancel, h]
  · intro h
    simp [cancel, h, Timer.disable]
  · intro timeout t' hs
    obtain ⟨-, -, -, -, -, -, -, -, hcen, -⟩ := start_some_inv t timeout t' hs
    simp [cancel, hcen, Timer.disable]

/-- C7 witness: cancelling the freshly started 16 MHz timer succeeds, and
cancelling again fails with `Disabled`. -/
theorem C7_witness :
    (cancel tA).2 = Except.ok ()
    ∧ (cancel (cancel tA).1).2 = Except.error Error.Disabled :=
  (C7_cancel_behaviour t16M).2.2 1000 tA (by decide)

/-- C8: `free` disables the counter and returns the raw register block
unchanged except for the cleared `cen` bit, regardless of the timer's prior
state — in particular also right after a `cancel` has already disabled it. -/
theorem C8_free_disables (t : Timer) :
    free t = { t.tim with cr1 := { t.tim.cr1 with cen := false } }
    ∧ (free t).cr1.cen = false
    ∧ (free (cancel t).1).cr1.cen = false := by
  refine ⟨rfl, rfl, ?_⟩
  cases h : t.tim.cr1.cen <;> simp [free, cancel, h, Timer.disable]

/-- C9: the macro-generated constructor first sets the timer's bus enable
bit, then pulses reset (set, then clear, in that order), leaves the other
bus-register bits alone, resolves the clock through the bus domain's
selector, and delegates to `start` on a struct whose `timeout` is
initialised to zero. -/
theorem C9_construction (timclk : Clocks → Hertz) (tim : TimReg) (timeout : Hertz)
    (clocks : Clocks) (apb : APB) :
    (mkTimer timclk tim timeout clocks apb).1.2
        = [BusEvent.enableSet, BusEvent.resetSet, BusEvent.resetClear]
    ∧ (mkTimer timclk tim timeout clocks apb).1.1.enr.en = true
    ∧ (mkTimer timclk tim timeout clocks apb).1.1.rstr.rst = false
    ∧ (mkTimer timclk tim timeout clocks apb).1.1.enr.rest = apb.enr.rest
    ∧ (mkTimer timclk tim timeout clocks apb).1.1.rstr.rest = apb.rstr.rest
    ∧ (mkTimer timclk tim timeout clocks apb).2
        = start { clock := timclk clocks, tim := tim, timeout := 0 } timeout := by
  simp [mkTimer, modifyEnrSetEn, modifyRstrSetRst, modifyRstrClearRst]

/-- A timer whose interrupt-enable register carries a nonzero value in its
unnamed remaining bits, to observe whether they survive `unlisten`. -/
def tDier5 : Timer :=
  { clock := 0
    tim := { resetTimReg with dier := { uie := true, rest := 5 } }
    timeout := 0 }

/-- C10: the claim groups `unlisten` with `wait` as a read-modify-write that
preserves the other fields of the interrupt-enable register.  False on the
code: `unlisten` performs a whole-register `write`, so a nonzero value held
in the other `dier` bits is zeroed rather than preserved. -/
theorem C10_counterexample :
    tDier5.tim.dier.rest = 5
    ∧ (unlisten tDier5 Event.TimeOut).tim.dier.rest = 0
    ∧ (5 : Nat) ≠ 0 := by
  decide

/-- C10 (amended): `clear_interrupt`, `listen` and also `unlisten` all
perform whole-register writes — every field of the written register other
than the named flag ends at the write-reset value zero — while `wait` uses a
read-modify-write that preserves the rest of the status register. -/
theorem C10_register_writes (t : Timer) (e : Event) :
    (clear_interrupt t e).tim.sr = { uif := false, rest := 0 }
    ∧ (listen t e).tim.dier = { uie := true, rest := 0 }
    ∧ (unlisten t e).tim.dier = { uie := false, rest := 0 }
    ∧ (wait t).1.tim.sr.rest = t.tim.sr.rest
    ∧ (wait t).1.tim.dier = t.tim.dier := by
  cases e
  refine ⟨rfl, rfl, rfl, ?_, ?_⟩ <;> cases h : t.tim.sr.uif <;> simp [wait, h]

end Stm32f7
